import Mathlib

/-!
Verification of the tool layer of the `llm` repository (files
`groq_base.py` and `llama_base.py`).

Modelling conventions:
* Python runtime values of JSON shape (the decoded bodies returned by
  `response.json()`, the strings returned by `json.dumps`, and the error
  dicts built by the llama variant) are modelled by the inductive `Json`
  below; a Python `str` is `Json.str`, a Python `dict` is `Json.obj`.
  JSON numbers are modelled as integers (no claim depends on float
  rendering).
* The network is an oracle `Network : String → HttpOutcome`: a URL either
  yields a 2xx response with a decoded JSON body (`ok`) or a non-2xx
  status / network failure whose `requests` exception carries a message
  (`err`).
* Python exception propagation is `Except String`: a function that may
  raise returns `Except.error msg` on an uncaught exception.
-/

/-- JSON values, the shape of every payload crossing the tool layer. -/
inductive Json where
  | null
  | bool (b : Bool)
  | num (n : Int)
  | str (s : String)
  | arr (xs : List Json)
  | obj (kvs : List (String × Json))
deriving Repr

/-- Decimal digit to its character, used by date rendering and escapes. -/
def digitChar : Nat → Char
  | 0 => '0' | 1 => '1' | 2 => '2' | 3 => '3' | 4 => '4'
  | 5 => '5' | 6 => '6' | 7 => '7' | 8 => '8' | _ => '9'

/-- Lowercase hexadecimal digit, as produced by CPython's `\uXXXX` escapes. -/
def hexDigitChar : Nat → Char
  | 0 => '0' | 1 => '1' | 2 => '2' | 3 => '3' | 4 => '4'
  | 5 => '5' | 6 => '6' | 7 => '7' | 8 => '8' | 9 => '9'
  | 10 => 'a' | 11 => 'b' | 12 => 'c' | 13 => 'd' | 14 => 'e' | _ => 'f'

/-- Four lowercase hex digits of a code unit, as in `\uXXXX`. -/
def hex4Chars (n : Nat) : List Char :=
  [hexDigitChar (n / 4096 % 16), hexDigitChar (n / 256 % 16),
   hexDigitChar (n / 16 % 16), hexDigitChar (n % 16)]

/-- CPython `json` escaping of one character with the default
`ensure_ascii=True`: backslash and quote are escaped, the five control
characters with short escapes use them, other characters outside
`0x20..0x7e` become `\uXXXX` (a surrogate pair above `0xffff`). -/
def escapeChar (c : Char) : List Char :=
  if c = '"' then ['\\', '"']
  else if c = '\\' then ['\\', '\\']
  else if c = '\n' then ['\\', 'n']
  else if c = '\r' then ['\\', 'r']
  else if c = '\t' then ['\\', 't']
  else if c.toNat = 8 then ['\\', 'b']
  else if c.toNat = 12 then ['\\', 'f']
  else if 32 ≤ c.toNat ∧ c.toNat ≤ 126 then [c]
  else if c.toNat ≤ 65535 then '\\' :: 'u' :: hex4Chars c.toNat
  else
    '\\' :: 'u' :: hex4Chars (55296 + (c.toNat - 65536) / 1024) ++
      ('\\' :: 'u' :: hex4Chars (56320 + (c.toNat - 65536) % 1024))

/-- `json.dumps` of a Python string: quoted, characters escaped. -/
def dumpPyString (s : String) : String :=
  String.mk ('"' :: (s.data.map escapeChar).flatten ++ ['"'])

mutual

/-- `json.dumps` with CPython's default arguments (separators `", "` and
`": "`, `ensure_ascii=True`), restricted to the `Json` model. -/
def dumps : Json → String
  | Json.null => "null"
  | Json.bool true => "true"
  | Json.bool false => "false"
  | Json.num n => toString n
  | Json.str s => dumpPyString s
  | Json.arr xs => "[" ++ dumpsArr xs ++ "]"
  | Json.obj kvs => "\x7b" ++ dumpsObj kvs ++ "\x7d"

/-- Array elements joined by `", "`. -/
def dumpsArr : List Json → String
  | [] => ""
  | [x] => dumps x
  | x :: xs => dumps x ++ ", " ++ dumpsArr xs

/-- Object entries `key: value` joined by `", "`. -/
def dumpsObj : List (String × Json) → String
  | [] => ""
  | [kv] => dumpPyString kv.1 ++ ": " ++ dumps kv.2
  | kv :: kvs => dumpPyString kv.1 ++ ": " ++ dumps kv.2 ++ ", " ++ dumpsObj kvs

end

/-- Outcome of one HTTP GET: a 2xx response with decoded JSON body, or a
non-2xx status / network failure (the `requests` exception message). -/
inductive HttpOutcome where
  | ok (body : Json)
  | err (msg : String)
deriving Repr

/-- The network as an oracle from URL to outcome. -/
abbrev Network := String → HttpOutcome

/-- `groq_base.retrieve_from_endpoint`: issues the GET, lets
`raise_for_status` (and any network exception) propagate uncaught, and on
success returns the Python string `json.dumps(response.json())`. -/
def retrieve_from_endpoint_groq (net : Network) (url : String) : Except String Json :=
  match net url with
  | HttpOutcome.ok body => Except.ok (Json.str (dumps body))
  | HttpOutcome.err e => Except.error e

/-- `llama_base.retrieve_from_endpoint`: same GET, but every
`requests.exceptions.RequestException` is caught and turned into the dict
`{"error": str(e)}`; on success the decoded body is returned directly. -/
def retrieve_from_endpoint_llama (net : Network) (url : String) : Except String Json :=
  match net url with
  | HttpOutcome.ok body => Except.ok body
  | HttpOutcome.err e => Except.ok (Json.obj [("error", Json.str e)])

/-!
## Date handling (`llama_base.format_date`)

`format_date` tries `datetime.strptime(date, "%Y-%m-%d")`, then
`datetime.strptime(date, "%d/%m/%Y")`, then falls back to
`datetime.today()`; whichever succeeds is rendered with
`strftime("%Y-%m-%d")`.

CPython's `_strptime` compiles each directive to a regular expression and
matches them in sequence, raising `ValueError` when the pattern fails,
when unconverted data remains, or when `datetime(year, month, day)`
rejects the values.  The directive patterns (Python 3.11) are
  `%Y` = four digits exactly,
  `%m` = `1[0-2]|0[1-9]|[1-9]` (ordered alternation),
  `%d` = `3[01]|[12]\d|0[1-9]|[1-9]| [1-9]` (ordered alternation).
The parsers below realize these ordered alternations greedily; because a
longer alternative is never rescued by backtracking into a shorter one in
the two formats used here (after a month or day the pattern demands a
separator, which can never match the digit that backtracking would
expose), the greedy reading is extensionally the regex behavior.

`strftime("%Y-%m-%d")` is rendered with the documented field widths:
`%Y`, `%m`, `%d` zero-padded to four resp. two digits.
-/

/-- Character code lies in an inclusive range (regex character class). -/
def between (lo : Nat) (c : Char) (hi : Nat) : Bool :=
  decide (lo ≤ c.toNat ∧ c.toNat ≤ hi)

/-- Numeric value of a decimal digit character. -/
def digitVal (c : Char) : Nat := c.toNat - 48

/-- `%Y`: exactly four decimal digits. -/
def parseYear4 : List Char → Option (Nat × List Char)
  | c1 :: c2 :: c3 :: c4 :: rest =>
    if between 48 c1 57 && between 48 c2 57 && between 48 c3 57 && between 48 c4 57 then
      some (1000 * digitVal c1 + 100 * digitVal c2 + 10 * digitVal c3 + digitVal c4, rest)
    else none
  | _ => none

/-- `%m`: `1[0-2]|0[1-9]|[1-9]`, alternatives in regex order. -/
def parseMonth : List Char → Option (Nat × List Char)
  | c1 :: c2 :: rest =>
    if between 49 c1 49 && between 48 c2 50 then some (10 + digitVal c2, rest)
    else if between 48 c1 48 && between 49 c2 57 then some (digitVal c2, rest)
    else if between 49 c1 57 then some (digitVal c1, c2 :: rest)
    else none
  | [c1] => if between 49 c1 57 then some (digitVal c1, []) else none
  | [] => none

/-- `%d`: `3[01]|[12]\d|0[1-9]|[1-9]| [1-9]`, alternatives in regex order. -/
def parseDay : List Char → Option (Nat × List Char)
  | c1 :: c2 :: rest =>
    if between 51 c1 51 && between 48 c2 49 then some (30 + digitVal c2, rest)
    else if between 49 c1 50 && between 48 c2 57 then
      some (10 * digitVal c1 + digitVal c2, rest)
    else if between 48 c1 48 && between 49 c2 57 then some (digitVal c2, rest)
    else if between 49 c1 57 then some (digitVal c1, c2 :: rest)
    else if c1 = ' ' && between 49 c2 57 then some (digitVal c2, rest)
    else none
  | [c1] => if between 49 c1 57 then some (digitVal c1, []) else none
  | [] => none

/-- Gregorian leap year, as in `datetime`. -/
def leapYear (y : Nat) : Bool := (y % 4 = 0 && y % 100 ≠ 0) || y % 400 = 0

/-- Length of a month, as in `datetime`. -/
def daysInMonth (y m : Nat) : Nat :=
  if m = 2 then (if leapYear y then 29 else 28)
  else if m = 4 ∨ m = 6 ∨ m = 9 ∨ m = 11 then 30
  else 31

/-- `datetime(year, month, day)` accepts the triple: `MINYEAR ≤ year ≤
MAXYEAR`, a real month and a day within the month.  (The directive
patterns already bound month, day and year; the redundant bounds make the
check self-contained.) -/
def validYmd (y m d : Nat) : Bool :=
  decide (1 ≤ y ∧ y ≤ 9999 ∧ 1 ≤ m ∧ m ≤ 12 ∧ 1 ≤ d ∧ d ≤ daysInMonth y m)

/-- `strptime(s, "%Y-%m-%d")` followed by `datetime` validation; `none`
is a `ValueError`.  The final leftover test is strptime's
"unconverted data remains" check. -/
def parseYmdChars (cs : List Char) : Option (Nat × Nat × Nat) :=
  match parseYear4 cs with
  | some (y, r1) =>
    match r1 with
    | '-' :: r2 =>
      match parseMonth r2 with
      | some (m, r3) =>
        match r3 with
        | '-' :: r4 =>
          match parseDay r4 with
          | some (d, r5) =>
            match r5 with
            | [] => if validYmd y m d then some (y, m, d) else none
            | _ :: _ => none
          | none => none
        | _ => none
      | none => none
    | _ => none
  | none => none

/-- `strptime(s, "%d/%m/%Y")` followed by `datetime` validation. -/
def parseDmyChars (cs : List Char) : Option (Nat × Nat × Nat) :=
  match parseDay cs with
  | some (d, r1) =>
    match r1 with
    | '/' :: r2 =>
      match parseMonth r2 with
      | some (m, r3) =>
        match r3 with
        | '/' :: r4 =>
          match parseYear4 r4 with
          | some (y, r5) =>
            match r5 with
            | [] => if validYmd y m d then some (y, m, d) else none
            | _ :: _ => none
          | none => none
        | _ => none
      | none => none
    | _ => none
  | none => none

/-- Two-digit zero-padded field (`%m`, `%d`). -/
def pad2Chars (n : Nat) : List Char := [digitChar (n / 10), digitChar (n % 10)]

/-- Four-digit zero-padded field (`%Y`). -/
def pad4Chars (n : Nat) : List Char :=
  [digitChar (n / 1000), digitChar (n / 100 % 10), digitChar (n / 10 % 10),
   digitChar (n % 10)]

/-- `strftime("%Y-%m-%d")` on a date with the given fields. -/
def renderYmdChars (y m d : Nat) : List Char :=
  pad4Chars y ++ '-' :: (pad2Chars m ++ '-' :: pad2Chars d)

/-- `strftime("%Y-%m-%d")` as a string. -/
def renderYmd (y m d : Nat) : String := String.mk (renderYmdChars y m d)

/-- A calendar date in canonical `DD/MM/YYYY` form, for stating the
second recognized input format. -/
def renderDmy (d m y : Nat) : String :=
  String.mk (pad2Chars d ++ '/' :: (pad2Chars m ++ '/' :: pad4Chars y))

/-- The current date, an input of the model standing for
`datetime.today()`. -/
structure Date where
  year : Nat
  month : Nat
  day : Nat
deriving Repr, DecidableEq

/-- `datetime.today()` always carries a constructible date. -/
def Date.valid (t : Date) : Bool := validYmd t.year t.month t.day

/-- `llama_base.format_date`, with `datetime.today()` made an explicit
parameter: try `%Y-%m-%d`, then `%d/%m/%Y`, else fall back to today;
render the winner with `strftime("%Y-%m-%d")`. -/
def format_date (today : Date) (date : String) : String :=
  match parseYmdChars date.data with
  | some (y, m, d) => renderYmd y m d
  | none =>
    match parseDmyChars date.data with
    | some (y, m, d) => renderYmd y m d
    | none => renderYmd today.year today.month today.day

/-- The result shape `YYYY-MM-DD`: four digits, dash, two digits, dash,
two digits. -/
def matchesYmdShape (s : String) : Bool :=
  match s.data with
  | [y1, y2, y3, y4, s1, m1, m2, s2, d1, d2] =>
    between 48 y1 57 && between 48 y2 57 && between 48 y3 57 && between 48 y4 57 &&
    s1 = '-' && between 48 m1 57 && between 48 m2 57 &&
    s2 = '-' && between 48 d1 57 && between 48 d2 57
  | _ => false

/-!
## Tool catalog

Each tool builds one URL by string interpolation and hands it to
`retrieve_from_endpoint`.  The URL builders are factored out so that the
constructed request can be inspected; each tool is the composition of its
builder with the variant's `retrieve_from_endpoint`.
-/

/-- The fixed base URL hardcoded in every endpoint-backed tool. -/
def sectors_base_url : String := "https://api.sectors.app"

namespace Groq

/-- URL of the first `groq_base.get_company_overview` definition: the
QCC endpoint under the `URL_API` environment value; the `stock` argument
is unused by the body. -/
def get_company_overview_qcc_url (url_api : String) (stock : String) : String :=
  url_api ++ "/get_qcc_tema_by_team"

/-- URL of the second `groq_base.get_company_overview` definition. -/
def get_company_overview_url (stock : String) : String :=
  "https://api.sectors.app/v1/company/report/" ++ stock ++ "/?sections=overview"

/-- URL of `groq_base.get_top_companies_by_tx_volume`; `top_n` defaults
to 5 as in the Python signature. -/
def get_top_companies_by_tx_volume_url (start_date end_date : String)
    (top_n : Int := 5) : String :=
  "https://api.sectors.app/v1/most-traded/?start=" ++ start_date ++ "&end=" ++
    end_date ++ "&n_stock=" ++ toString top_n

/-- URL of `groq_base.get_daily_tx`. -/
def get_daily_tx_url (stock start_date end_date : String) : String :=
  "https://api.sectors.app/v1/daily/" ++ stock ++ "/?start=" ++ start_date ++
    "&end=" ++ end_date

/-- `groq_base.get_company_overview` (the surviving second definition). -/
def get_company_overview (net : Network) (stock : String) : Except String Json :=
  retrieve_from_endpoint_groq net (get_company_overview_url stock)

/-- `groq_base.get_top_companies_by_tx_volume`. -/
def get_top_companies_by_tx_volume (net : Network) (start_date end_date : String)
    (top_n : Int := 5) : Except String Json :=
  retrieve_from_endpoint_groq net
    (get_top_companies_by_tx_volume_url start_date end_date top_n)

/-- `groq_base.get_daily_tx`. -/
def get_daily_tx (net : Network) (stock start_date end_date : String) :
    Except String Json :=
  retrieve_from_endpoint_groq net (get_daily_tx_url stock start_date end_date)

end Groq

namespace Llama

/-- URL of `llama_base.get_company_overview`. -/
def get_company_overview_url (stock : String) : String :=
  "https://api.sectors.app/v1/company/report/" ++ stock ++ "/?sections=overview"

/-- URL of `llama_base.get_top_companies_by_tx_volume`: both dates are
passed through `format_date` before interpolation; `top_n` defaults
to 5. -/
def get_top_companies_by_tx_volume_url (today : Date) (start_date end_date : String)
    (top_n : Int := 5) : String :=
  "https://api.sectors.app/v1/most-traded/?start=" ++ format_date today start_date ++
    "&end=" ++ format_date today end_date ++ "&n_stock=" ++ toString top_n

/-- URL of `llama_base.get_daily_tx`: both dates are passed through
`format_date` before interpolation. -/
def get_daily_tx_url (today : Date) (stock start_date end_date : String) : String :=
  "https://api.sectors.app/v1/daily/" ++ stock ++ "/?start=" ++
    format_date today start_date ++ "&end=" ++ format_date today end_date

/-- `llama_base.get_company_overview`. -/
def get_company_overview (net : Network) (stock : String) : Except String Json :=
  retrieve_from_endpoint_llama net (get_company_overview_url stock)

/-- `llama_base.get_top_companies_by_tx_volume`. -/
def get_top_companies_by_tx_volume (net : Network) (today : Date)
    (start_date end_date : String) (top_n : Int := 5) : Except String Json :=
  retrieve_from_endpoint_llama net
    (get_top_companies_by_tx_volume_url today start_date end_date top_n)

/-- `llama_base.get_daily_tx`. -/
def get_daily_tx (net : Network) (today : Date) (stock start_date end_date : String) :
    Except String Json :=
  retrieve_from_endpoint_llama net (get_daily_tx_url today stock start_date end_date)

end Llama

/-!
## Module-level name binding in `groq_base.py`

Python executes `def` statements top to bottom; a later `def` of the same
name rebinds it, and the `tools = [...]` list built afterwards looks each
name up in the module namespace.  The overview tool is a URL builder
`String → String` (stock to URL); binding and lookup are modelled
directly.
-/

/-- A tool as the module sees it: stock symbol to constructed URL. -/
abbrev UrlBuilder := String → String

/-- One `def name: ...` statement: rebinds `name` in the namespace. -/
def pyDefine (ns : String → Option UrlBuilder) (nm : String) (f : UrlBuilder) :
    String → Option UrlBuilder :=
  fun n => if n = nm then some f else ns n

/-- The two `get_company_overview` definitions of `groq_base.py`,
executed in source order over the empty namespace. -/
def Groq.moduleNamespace (url_api : String) : String → Option UrlBuilder :=
  pyDefine
    (pyDefine (fun _ => none) "get_company_overview"
      (Groq.get_company_overview_qcc_url url_api))
    "get_company_overview" Groq.get_company_overview_url

/-- The entry placed in `tools = [get_company_overview, ...]`, looked up
after both definitions have executed. -/
def Groq.tools_overview_entry (url_api : String) : Option UrlBuilder :=
  Groq.moduleNamespace url_api "get_company_overview"

/-!
## Lemmas about the date machinery
-/

theorem digitChar_toNat (k : Nat) (h : k ≤ 9) : (digitChar k).toNat = 48 + k := by
  interval_cases k <;> decide

theorem digitVal_digitChar (k : Nat) (h : k ≤ 9) : digitVal (digitChar k) = k := by
  simp [digitVal, digitChar_toNat k h]

theorem between_digitChar_eq_true (lo hi k : Nat) (h9 : k ≤ 9)
    (h1 : lo ≤ 48 + k) (h2 : 48 + k ≤ hi) :
    between lo (digitChar k) hi = true := by
  simp [between, digitChar_toNat k h9]
  omega

theorem between_digitChar_eq_false (lo hi k : Nat) (h9 : k ≤ 9)
    (h : 48 + k < lo ∨ hi < 48 + k) :
    between lo (digitChar k) hi = false := by
  simp [between, digitChar_toNat k h9]
  omega

theorem parseYear4_pad4 (y : Nat) (hy : y ≤ 9999) (rest : List Char) :
    parseYear4 (pad4Chars y ++ rest) = some (y, rest) := by
  have e1 : between 48 (digitChar (y / 1000)) 57 = true :=
    between_digitChar_eq_true _ _ _ (by omega) (by omega) (by omega)
  have e2 : between 48 (digitChar (y / 100 % 10)) 57 = true :=
    between_digitChar_eq_true _ _ _ (by omega) (by omega) (by omega)
  have e3 : between 48 (digitChar (y / 10 % 10)) 57 = true :=
    between_digitChar_eq_true _ _ _ (by omega) (by omega) (by omega)
  have e4 : between 48 (digitChar (y % 10)) 57 = true :=
    between_digitChar_eq_true _ _ _ (by omega) (by omega) (by omega)
  have v1 := digitVal_digitChar (y / 1000) (by omega)
  have v2 := digitVal_digitChar (y / 100 % 10) (by omega)
  have v3 := digitVal_digitChar (y / 10 % 10) (by omega)
  have v4 := digitVal_digitChar (y % 10) (by omega)
  simp [pad4Chars, parseYear4, e1, e2, e3, e4, v1, v2, v3, v4]
  omega

theorem parseMonth_pad2 (m : Nat) (h1 : 1 ≤ m) (h2 : m ≤ 12) (rest : List Char) :
    parseMonth (pad2Chars m ++ rest) = some (m, rest) := by
  rcases Nat.lt_or_ge m 10 with hm | hm
  · have hq : m / 10 = 0 := Nat.div_eq_of_lt hm
    have hr : m % 10 = m := Nat.mod_eq_of_lt hm
    have e1 : between 49 (digitChar (m / 10)) 49 = false := by
      rw [hq]; exact between_digitChar_eq_false _ _ _ (by omega) (by omega)
    have e2 : between 48 (digitChar (m / 10)) 48 = true := by
      rw [hq]; exact between_digitChar_eq_true _ _ _ (by omega) (by omega) (by omega)
    have e3 : between 49 (digitChar (m % 10)) 57 = true := by
      rw [hr]; exact between_digitChar_eq_true _ _ _ (by omega) (by omega) (by omega)
    have e4 : digitVal (digitChar (m % 10)) = m := by
      rw [hr]; exact digitVal_digitChar _ (by omega)
    simp [pad2Chars, parseMonth, e1, e2, e3, e4]
  · have hq : m / 10 = 1 := by omega
    have hr : m % 10 = m - 10 := by omega
    have e1 : between 49 (digitChar (m / 10)) 49 = true := by
      rw [hq]; exact between_digitChar_eq_true _ _ _ (by omega) (by omega) (by omega)
    have e2 : between 48 (digitChar (m % 10)) 50 = true := by
      rw [hr]; exact between_digitChar_eq_true _ _ _ (by omega) (by omega) (by omega)
    have e3 : digitVal (digitChar (m % 10)) = m - 10 := by
      rw [hr]; exact digitVal_digitChar _ (by omega)
    simp [pad2Chars, parseMonth, e1, e2, e3]
    omega

theorem parseDay_pad2 (d : Nat) (h1 : 1 ≤ d) (h2 : d ≤ 31) (rest : List Char) :
    parseDay (pad2Chars d ++ rest) = some (d, rest) := by
  rcases Nat.lt_or_ge d 10 with hd | hd
  · have hq : d / 10 = 0 := Nat.div_eq_of_lt hd
    have hr : d % 10 = d := Nat.mod_eq_of_lt hd
    have e1 : between 51 (digitChar (d / 10)) 51 = false := by
      rw [hq]; exact between_digitChar_eq_false _ _ _ (by omega) (by omega)
    have e2 : between 49 (digitChar (d / 10)) 50 = false := by
      rw [hq]; exact between_digitChar_eq_false _ _ _ (by omega) (by omega)
    have e3 : between 48 (digitChar (d / 10)) 48 = true := by
      rw [hq]; exact between_digitChar_eq_true _ _ _ (by omega) (by omega) (by omega)
    have e4 : between 49 (digitChar (d % 10)) 57 = true := by
      rw [hr]; exact between_digitChar_eq_true _ _ _ (by omega) (by omega) (by omega)
    have e5 : digitVal (digitChar (d % 10)) = d := by
      rw [hr]; exact digitVal_digitChar _ (by omega)
    simp [pad2Chars, parseDay, e1, e2, e3, e4, e5]
  · rcases Nat.lt_or_ge d 30 with hd3 | hd3
    · have hq : d / 10 = 1 ∨ d / 10 = 2 := by omega
      have hr : d % 10 = d - 10 * (d / 10) := by omega
      have hq9 : d / 10 ≤ 9 := by omega
      have e1 : between 51 (digitChar (d / 10)) 51 = false :=
        between_digitChar_eq_false _ _ _ hq9 (by omega)
      have e2 : between 49 (digitChar (d / 10)) 50 = true :=
        between_digitChar_eq_true _ _ _ hq9 (by omega) (by omega)
      have e3 : between 48 (digitChar (d % 10)) 57 = true :=
        between_digitChar_eq_true _ _ _ (by omega) (by omega) (by omega)
      have e4 : digitVal (digitChar (d / 10)) = d / 10 := digitVal_digitChar _ hq9
      have e5 : digitVal (digitChar (d % 10)) = d % 10 := digitVal_digitChar _ (by omega)
      simp [pad2Chars, parseDay, e1, e2, e3, e4, e5]
      omega
    · have hq : d / 10 = 3 := by omega
      have hr : d % 10 ≤ 1 := by omega
      have e1 : between 51 (digitChar (d / 10)) 51 = true := by
        rw [hq]; exact between_digitChar_eq_true _ _ _ (by omega) (by omega) (by omega)
      have e2 : between 48 (digitChar (d % 10)) 49 = true :=
        between_digitChar_eq_true _ _ _ (by omega) (by omega) (by omega)
      have e3 : digitVal (digitChar (d % 10)) = d % 10 := digitVal_digitChar _ (by omega)
      simp [pad2Chars, parseDay, e1, e2, e3]
      omega

theorem daysInMonth_le_31 (y m : Nat) : daysInMonth y m ≤ 31 := by
  unfold daysInMonth
  split
  · split <;> omega
  · split <;> omega

theorem validYmd_iff (y m d : Nat) :
    validYmd y m d = true ↔
      (1 ≤ y ∧ y ≤ 9999 ∧ 1 ≤ m ∧ m ≤ 12 ∧ 1 ≤ d ∧ d ≤ daysInMonth y m) := by
  simp [validYmd]

theorem parseYmdChars_render (y m d : Nat) (h : validYmd y m d = true) :
    parseYmdChars (renderYmdChars y m d) = some (y, m, d) := by
  obtain ⟨hy1, hy2, hm1, hm2, hd1, hd2⟩ := (validYmd_iff y m d).mp h
  have hd31 : d ≤ 31 := le_trans hd2 (daysInMonth_le_31 y m)
  have hDay := parseDay_pad2 d hd1 hd31 []
  rw [List.append_nil] at hDay
  simp only [parseYmdChars, renderYmdChars, parseYear4_pad4 y hy2,
    parseMonth_pad2 m hm1 hm2, hDay, h, if_true]

theorem parseDmyChars_render (y m d : Nat) (h : validYmd y m d = true) :
    parseDmyChars (pad2Chars d ++ '/' :: (pad2Chars m ++ '/' :: pad4Chars y)) =
      some (y, m, d) := by
  obtain ⟨hy1, hy2, hm1, hm2, hd1, hd2⟩ := (validYmd_iff y m d).mp h
  have hd31 : d ≤ 31 := le_trans hd2 (daysInMonth_le_31 y m)
  have hYear := parseYear4_pad4 y hy2 []
  rw [List.append_nil] at hYear
  simp only [parseDmyChars, parseDay_pad2 d hd1 hd31, parseMonth_pad2 m hm1 hm2,
    hYear, h, if_true]

theorem parseYmdChars_renderDmy (y m d : Nat) :
    parseYmdChars (pad2Chars d ++ '/' :: (pad2Chars m ++ '/' :: pad4Chars y)) =
      none := by
  have hs : between 48 '/' 57 = false := by decide
  unfold parseYmdChars
  simp [pad2Chars, parseYear4, hs]

theorem parseYmdChars_valid {cs : List Char} {y m d : Nat}
    (h : parseYmdChars cs = some (y, m, d)) : validYmd y m d = true := by
  unfold parseYmdChars at h
  repeat split at h
  all_goals simp_all

theorem parseDmyChars_valid {cs : List Char} {y m d : Nat}
    (h : parseDmyChars cs = some (y, m, d)) : validYmd y m d = true := by
  unfold parseDmyChars at h
  repeat split at h
  all_goals simp_all

theorem matchesYmdShape_render (y m d : Nat) (hy : y ≤ 9999) (hm : m ≤ 99)
    (hd : d ≤ 99) : matchesYmdShape (renderYmd y m d) = true := by
  have hdig : ∀ k : Nat, k ≤ 9 → between 48 (digitChar k) 57 = true := fun k hk =>
    between_digitChar_eq_true _ _ _ hk (by omega) (by omega)
  have e1 := hdig (y / 1000) (by omega)
  have e2 := hdig (y / 100 % 10) (by omega)
  have e3 := hdig (y / 10 % 10) (by omega)
  have e4 := hdig (y % 10) (by omega)
  have e5 := hdig (m / 10) (by omega)
  have e6 := hdig (m % 10) (by omega)
  have e7 := hdig (d / 10) (by omega)
  have e8 := hdig (d % 10) (by omega)
  have hdata : (renderYmd y m d).data = renderYmdChars y m d := rfl
  unfold matchesYmdShape
  rw [hdata]
  unfold renderYmdChars pad4Chars pad2Chars
  simp [e1, e2, e3, e4, e5, e6, e7, e8]

theorem format_date_render (today : Date) (y m d : Nat)
    (h : validYmd y m d = true) :
    format_date today (renderYmd y m d) = renderYmd y m d := by
  have hdata : (renderYmd y m d).data = renderYmdChars y m d := rfl
  unfold format_date
  rw [hdata, parseYmdChars_render y m d h]

theorem format_date_renderDmy (today : Date) (y m d : Nat)
    (h : validYmd y m d = true) :
    format_date today (renderDmy d m y) = renderYmd y m d := by
  have hdata : (renderDmy d m y).data =
      pad2Chars d ++ '/' :: (pad2Chars m ++ '/' :: pad4Chars y) := rfl
  unfold format_date
  rw [hdata, parseYmdChars_renderDmy y m d, parseDmyChars_render y m d h]

theorem format_date_output (today : Date) (s : String) (ht : today.valid = true) :
    ∃ y m d, validYmd y m d = true ∧ format_date today s = renderYmd y m d := by
  unfold format_date
  cases hY : parseYmdChars s.data with
  | some t =>
    exact ⟨t.1, t.2.1, t.2.2, parseYmdChars_valid (by rw [hY]), by simp⟩
  | none =>
    cases hD : parseDmyChars s.data with
    | some t =>
      exact ⟨t.1, t.2.1, t.2.2, parseDmyChars_valid (by rw [hD]), by simp⟩
    | none =>
      exact ⟨today.year, today.month, today.day, ht, by simp⟩

/-!
## The claims
-/

/-- C1: on a non-2xx HTTP status or network failure, the groq variant's
`retrieve_from_endpoint` propagates the failure as an uncaught exception,
while the llama variant's catches it and returns, without raising, a
same-shaped response object: the dict `{"error": message}`. -/
theorem c1_error_policy (net : Network) (url msg : String)
    (h : net url = HttpOutcome.err msg) :
    retrieve_from_endpoint_groq net url = Except.error msg ∧
    retrieve_from_endpoint_llama net url =
      Except.ok (Json.obj [("error", Json.str msg)]) := by
  simp [retrieve_from_endpoint_groq, retrieve_from_endpoint_llama, h]

/-- Witness for C1 at a concrete failing network. -/
theorem c1_error_policy_witness :
    (fun _ : String => HttpOutcome.err "boom") "https://api.sectors.app/v1/x" =
        HttpOutcome.err "boom" ∧
    (retrieve_from_endpoint_groq (fun _ => HttpOutcome.err "boom")
        "https://api.sectors.app/v1/x" = Except.error "boom" ∧
      retrieve_from_endpoint_llama (fun _ => HttpOutcome.err "boom")
        "https://api.sectors.app/v1/x" =
          Except.ok (Json.obj [("error", Json.str "boom")])) :=
  ⟨rfl, c1_error_policy (fun _ => HttpOutcome.err "boom")
    "https://api.sectors.app/v1/x" "boom" rfl⟩

/-- C2: `format_date` returns a `YYYY-MM-DD` date string unchanged, and
reformats a `DD/MM/YYYY` date string to the same calendar date in
`YYYY-MM-DD` form, whatever the current date is. -/
theorem c2_format_date_recognized (today : Date) (y m d : Nat)
    (h : validYmd y m d = true) :
    format_date today (renderYmd y m d) = renderYmd y m d ∧
    format_date today (renderDmy d m y) = renderYmd y m d :=
  ⟨format_date_render today y m d h, format_date_renderDmy today y m d h⟩

/-- Witness for C2 at 2024-06-01 and 01/06/2024. -/
theorem c2_format_date_recognized_witness :
    validYmd 2024 6 1 = true ∧
    renderYmd 2024 6 1 = "2024-06-01" ∧
    renderDmy 1 6 2024 = "01/06/2024" ∧
    (format_date ⟨2026, 10, 12⟩ (renderYmd 2024 6 1) = renderYmd 2024 6 1 ∧
      format_date ⟨2026, 10, 12⟩ (renderDmy 1 6 2024) = renderYmd 2024 6 1) :=
  ⟨by decide, by decide, by decide,
    c2_format_date_recognized ⟨2026, 10, 12⟩ 2024 6 1 (by decide)⟩

/-- C3: on an input that parses in neither recognized format,
`format_date` returns the current date rendered as `YYYY-MM-DD` (it is a
total function, so it never raises), and on every input whatsoever its
result matches the `YYYY-MM-DD` shape. -/
theorem c3_fallback_total (today : Date) (s : String)
    (ht : today.valid = true) :
    (parseYmdChars s.data = none → parseDmyChars s.data = none →
      format_date today s = renderYmd today.year today.month today.day) ∧
    matchesYmdShape (format_date today s) = true := by
  constructor
  · intro h1 h2
    simp [format_date, h1, h2]
  · obtain ⟨y, m, d, hv, he⟩ := format_date_output today s ht
    obtain ⟨hy1, hy2, hm1, hm2, hd1, hd2⟩ := (validYmd_iff y m d).mp hv
    have hd31 : d ≤ 31 := le_trans hd2 (daysInMonth_le_31 y m)
    rw [he]
    exact matchesYmdShape_render y m d hy2 (by omega) (by omega)

/-- Witness for C3 at the unparseable input "99/99". -/
theorem c3_fallback_total_witness :
    Date.valid ⟨2026, 10, 12⟩ = true ∧
    ((parseYmdChars ("99/99" : String).data = none →
        parseDmyChars ("99/99" : String).data = none →
        format_date ⟨2026, 10, 12⟩ "99/99" = renderYmd 2026 10 12) ∧
      matchesYmdShape (format_date ⟨2026, 10, 12⟩ "99/99") = true) :=
  ⟨by decide, c3_fallback_total ⟨2026, 10, 12⟩ "99/99" (by decide)⟩

/-- C4: `get_company_overview` builds exactly the path
`/v1/company/report/{stock}/?sections=overview` on the fixed base URL, in
both variants, in particular for the symbol BBCA. -/
theorem c4_company_overview_path :
    Groq.get_company_overview_url "BBCA" =
      sectors_base_url ++ "/v1/company/report/BBCA/?sections=overview" ∧
    Llama.get_company_overview_url "BBCA" =
      sectors_base_url ++ "/v1/company/report/BBCA/?sections=overview" ∧
    (∀ stock : String, Groq.get_company_overview_url stock =
      sectors_base_url ++ "/v1/company/report/" ++ stock ++ "/?sections=overview") ∧
    (∀ stock : String, Llama.get_company_overview_url stock =
      sectors_base_url ++ "/v1/company/report/" ++ stock ++ "/?sections=overview") :=
  ⟨rfl, rfl, fun _ => rfl, fun _ => rfl⟩

/-- C5: `get_daily_tx` builds exactly the path
`/v1/daily/{stock}/?start={start}&end={end}` on the fixed base URL — with
the dates interpolated raw in the groq variant and normalized through
`format_date` in the llama variant — in particular
`/v1/daily/BBCA/?start=2024-06-01&end=2024-06-30` for BBCA and that date
window. -/
theorem c5_daily_tx_path :
    Groq.get_daily_tx_url "BBCA" "2024-06-01" "2024-06-30" =
      sectors_base_url ++ "/v1/daily/BBCA/?start=2024-06-01&end=2024-06-30" ∧
    (∀ today : Date,
      Llama.get_daily_tx_url today "BBCA" "2024-06-01" "2024-06-30" =
        sectors_base_url ++ "/v1/daily/BBCA/?start=2024-06-01&end=2024-06-30") ∧
    (∀ stock start_date end_date : String,
      Groq.get_daily_tx_url stock start_date end_date =
        sectors_base_url ++ "/v1/daily/" ++ stock ++ "/?start=" ++ start_date ++
          "&end=" ++ end_date) ∧
    (∀ (today : Date) (stock start_date end_date : String),
      Llama.get_daily_tx_url today stock start_date end_date =
        sectors_base_url ++ "/v1/daily/" ++ stock ++ "/?start=" ++
          format_date today start_date ++ "&end=" ++ format_date today end_date) :=
  ⟨rfl, fun _ => rfl, fun _ _ _ => rfl, fun _ _ _ _ => rfl⟩

/-- C6: with `top_n` omitted, `get_top_companies_by_tx_volume` behaves as
with `top_n = 5` in both variants: the built path carries `n_stock=5`. -/
theorem c6_top_n_default :
    (∀ start_date end_date : String,
      Groq.get_top_companies_by_tx_volume_url start_date end_date =
        Groq.get_top_companies_by_tx_volume_url start_date end_date 5) ∧
    (∀ start_date end_date : String,
      Groq.get_top_companies_by_tx_volume_url start_date end_date =
        sectors_base_url ++ "/v1/most-traded/?start=" ++ start_date ++ "&end=" ++
          end_date ++ "&n_stock=5") ∧
    (∀ (today : Date) (start_date end_date : String),
      Llama.get_top_companies_by_tx_volume_url today start_date end_date =
        Llama.get_top_companies_by_tx_volume_url today start_date end_date 5) ∧
    (∀ (today : Date) (start_date end_date : String),
      Llama.get_top_companies_by_tx_volume_url today start_date end_date =
        sectors_base_url ++ "/v1/most-traded/?start=" ++
          format_date today start_date ++ "&end=" ++ format_date today end_date ++
          "&n_stock=5") := by
  refine ⟨fun _ _ => rfl, fun s e => ?_, fun _ _ _ => rfl, fun t s e => ?_⟩
  · simp only [Groq.get_top_companies_by_tx_volume_url, String.append_assoc]
    rfl
  · simp only [Llama.get_top_companies_by_tx_volume_url, String.append_assoc]
    rfl

/-- C7: in `groq_base.py` the second `get_company_overview` definition
silently overrides the first: after module evaluation the name — and the
entry placed in the tools catalog — denotes the endpoint-backed builder
of `/v1/company/report/{stock}/?sections=overview`, and never the first
(QCC-endpoint) definition, whatever `URL_API` is. -/
theorem c7_duplicate_definition_shadowed :
    (∀ url_api : String,
      Groq.tools_overview_entry url_api = some Groq.get_company_overview_url) ∧
    (∀ stock : String, Groq.get_company_overview_url stock =
      sectors_base_url ++ "/v1/company/report/" ++ stock ++ "/?sections=overview") ∧
    (∀ url_api : String,
      Groq.tools_overview_entry url_api ≠
        some (Groq.get_company_overview_qcc_url url_api)) := by
  refine ⟨fun url_api => rfl, fun stock => rfl, fun url_api h => ?_⟩
  have h2 : Groq.get_company_overview_url =
      Groq.get_company_overview_qcc_url url_api := by
    have h3 : some Groq.get_company_overview_url =
        some (Groq.get_company_overview_qcc_url url_api) := h
    exact Option.some.inj h3
  have hA : Groq.get_company_overview_url "A" =
      Groq.get_company_overview_qcc_url url_api "A" := by rw [h2]
  have hB : Groq.get_company_overview_url "B" =
      Groq.get_company_overview_qcc_url url_api "B" := by rw [h2]
  have hq : Groq.get_company_overview_qcc_url url_api "A" =
      Groq.get_company_overview_qcc_url url_api "B" := rfl
  have hAB : Groq.get_company_overview_url "A" =
      Groq.get_company_overview_url "B" := by rw [hA, hq, ← hB]
  exact absurd hAB (by decide)

/-- C8: on a 2xx response, `retrieve_from_endpoint` passes the decoded
body through with no validation, pagination or transformation: the llama
variant returns the decoded object itself, the groq variant its
`json.dumps` serialization. -/
theorem c8_success_passthrough (net : Network) (url : String) (body : Json)
    (h : net url = HttpOutcome.ok body) :
    retrieve_from_endpoint_llama net url = Except.ok body ∧
    retrieve_from_endpoint_groq net url = Except.ok (Json.str (dumps body)) := by
  simp [retrieve_from_endpoint_groq, retrieve_from_endpoint_llama, h]

/-- Witness for C8 at a concrete response body. -/
theorem c8_success_passthrough_witness :
    (fun _ : String => HttpOutcome.ok
        (Json.obj [("symbol", Json.str "BBCA"), ("close", Json.num 9100)]))
      "https://api.sectors.app/v1/x" = HttpOutcome.ok
        (Json.obj [("symbol", Json.str "BBCA"), ("close", Json.num 9100)]) ∧
    (retrieve_from_endpoint_llama
        (fun _ => HttpOutcome.ok
          (Json.obj [("symbol", Json.str "BBCA"), ("close", Json.num 9100)]))
        "https://api.sectors.app/v1/x" = Except.ok
          (Json.obj [("symbol", Json.str "BBCA"), ("close", Json.num 9100)]) ∧
      retrieve_from_endpoint_groq
        (fun _ => HttpOutcome.ok
          (Json.obj [("symbol", Json.str "BBCA"), ("close", Json.num 9100)]))
        "https://api.sectors.app/v1/x" = Except.ok (Json.str
          (dumps (Json.obj [("symbol", Json.str "BBCA"), ("close", Json.num 9100)])))) :=
  ⟨rfl, c8_success_passthrough _ "https://api.sectors.app/v1/x" _ rfl⟩

/-- C9: `format_date` is idempotent against one fixed current date:
every output is a canonical date string that the first recognized format
parses back and returns unchanged. -/
theorem c9_format_date_idempotent (today : Date) (s : String)
    (ht : today.valid = true) :
    format_date today (format_date today s) = format_date today s := by
  obtain ⟨y, m, d, hv, he⟩ := format_date_output today s ht
  rw [he, format_date_render today y m d hv]

/-- Witness for C9 at a reformatted input, an unchanged input and an
unparseable input. -/
theorem c9_format_date_idempotent_witness :
    Date.valid ⟨2026, 10, 12⟩ = true ∧
    format_date ⟨2026, 10, 12⟩ "01/06/2024" = "2024-06-01" ∧
    format_date ⟨2026, 10, 12⟩
        (format_date ⟨2026, 10, 12⟩ "01/06/2024") =
      format_date ⟨2026, 10, 12⟩ "01/06/2024" :=
  ⟨by decide, by decide,
    c9_format_date_idempotent ⟨2026, 10, 12⟩ "01/06/2024" (by decide)⟩

/-- C10: despite the `-> dict` annotation, every successful call of the
groq variant's `retrieve_from_endpoint` returns a string — the
`json.dumps` serialization of the decoded body — and never a dict. -/
theorem c10_groq_returns_string (net : Network) (url : String) (body : Json)
    (h : net url = HttpOutcome.ok body) :
    retrieve_from_endpoint_groq net url = Except.ok (Json.str (dumps body)) ∧
    ∀ kvs : List (String × Json),
      retrieve_from_endpoint_groq net url ≠ Except.ok (Json.obj kvs) := by
  constructor
  · simp [retrieve_from_endpoint_groq, h]
  · intro kvs hc
    rw [retrieve_from_endpoint_groq, h] at hc
    simp at hc

/-- Witness for C10 at a concrete response body. -/
theorem c10_groq_returns_string_witness :
    (fun _ : String => HttpOutcome.ok (Json.obj [("sector", Json.str "bank")]))
      "https://api.sectors.app/v1/y" =
        HttpOutcome.ok (Json.obj [("sector", Json.str "bank")]) ∧
    (retrieve_from_endpoint_groq
        (fun _ => HttpOutcome.ok (Json.obj [("sector", Json.str "bank")]))
        "https://api.sectors.app/v1/y" = Except.ok (Json.str
          (dumps (Json.obj [("sector", Json.str "bank")]))) ∧
      ∀ kvs : List (String × Json),
        retrieve_from_endpoint_groq
          (fun _ => HttpOutcome.ok (Json.obj [("sector", Json.str "bank")]))
          "https://api.sectors.app/v1/y" ≠ Except.ok (Json.obj kvs)) :=
  ⟨rfl, c10_groq_returns_string _ "https://api.sectors.app/v1/y" _ rfl⟩
